import Mathlib

/-!
Verification of the autonomous CI/CD healing agent backend.

Shallow embedding of the Python sources under `backend/`:
`agents/failure_parser_agent.py`, `agents/test_agent.py`, `agents/fix_agent.py`,
`agents/score_agent.py`, `agents/git_agent.py`, `agents/orchestrator.py`, `models.py`.

Modelling conventions:
* Python strings are Lean `String`s; character classes (`\w`, `\s`, `[A-Z]`,
  upper/lower-casing) are modelled over ASCII, which is the alphabet actually
  exercised by the program's own literals and test-runner output.
* Python `int` is `Int` where negative values are possible (scores), and `Nat`
  for line numbers, which the parsers only ever produce from `\d+` digit runs.
* Filesystem state is an explicit association list from path to file content;
  read/write faults and the Python `ast.parse` validity check of the standard
  library are oracle parameters of the fix-application model.
* Regular-expression matching is embedded as executable backtracking matchers
  specialised to the exact patterns appearing in the source.
-/

namespace CICD

/-! ## ASCII string utilities shared by the agents -/

/-- The single-quote character (ASCII 39), used to build message literals. -/
def sq : String := String.mk [Char.ofNat 39]

/-- Python `\s` over ASCII: space, tab, newline, carriage return,
vertical tab, form feed. -/
def pyIsSpace (c : Char) : Bool :=
  c = ' ' || c = '\t' || c = '\n' || c = '\r' || c = Char.ofNat 11 || c = Char.ofNat 12

/-- Python `\w` over ASCII: letters, digits and underscore. -/
def isWordChar (c : Char) : Bool :=
  c.isAlphanum || c = '_'

/-- Python `str.lower()` over ASCII (data-list based so that it reduces
definitionally, unlike the position-based core `String.toLower`). -/
def pyToLower (s : String) : String := String.mk (s.data.map Char.toLower)

/-- Python `str.upper()` over ASCII. -/
def pyToUpper (s : String) : String := String.mk (s.data.map Char.toUpper)

/-- Python `s.startswith(pre)`. -/
def strStartsWith (s pre : String) : Bool := pre.data.isPrefixOf s.data

/-- Substring test on character lists: does `needle` occur inside the list? -/
def listContainsSub (needle : List Char) : List Char → Bool
  | [] => needle.isPrefixOf []
  | c :: rest => needle.isPrefixOf (c :: rest) || listContainsSub needle rest

/-- Python `needle in haystack` (substring containment). -/
def strContains (haystack needle : String) : Bool :=
  listContainsSub needle.data haystack.data

/-- Leftmost-position scan: apply the positional matcher `f` to every suffix,
left to right, returning its first hit.  Models `re.search` for an unanchored
pattern. -/
def searchPos {α : Type} (f : List Char → Option α) : List Char → Option α
  | [] => f []
  | c :: rest =>
    match f (c :: rest) with
    | some a => some a
    | none => searchPos f rest

/-- Python `str.strip()` (ASCII whitespace on both ends). -/
def pyStrip (s : String) : String :=
  String.mk (((s.data.dropWhile pyIsSpace).reverse.dropWhile pyIsSpace).reverse)

/-- Python `str.rstrip()` (trailing ASCII whitespace). -/
def pyRStrip (s : String) : String :=
  String.mk ((s.data.reverse.dropWhile pyIsSpace).reverse)

/-- Python `str.lstrip()` (leading ASCII whitespace). -/
def pyLStrip (s : String) : String :=
  String.mk (s.data.dropWhile pyIsSpace)

/-- Python `str.lstrip('/')`: drop every leading slash. -/
def lstripSlash (s : String) : String :=
  String.mk (s.data.dropWhile (fun c => c = '/'))

/-- `str.splitlines(keepends=True)` restricted to `\n` / `\r\n` / `\r`
terminators (the terminators produced by the test runner). -/
def splitlinesKeepAux : List Char → List Char → List String
  | [], acc => if acc.isEmpty then [] else [String.mk acc.reverse]
  | '\r' :: '\n' :: rest, acc => String.mk (acc.reverse ++ ['\r', '\n']) :: splitlinesKeepAux rest []
  | '\r' :: rest, acc => String.mk (acc.reverse ++ ['\r']) :: splitlinesKeepAux rest []
  | '\n' :: rest, acc => String.mk (acc.reverse ++ ['\n']) :: splitlinesKeepAux rest []
  | c :: rest, acc => splitlinesKeepAux rest (c :: acc)

/-- `content.splitlines(keepends=True)`. -/
def splitlinesKeep (s : String) : List String :=
  splitlinesKeepAux s.data []

/-- Remove one trailing line terminator from a line. -/
def dropEol (s : String) : String :=
  String.mk (((s.data.reverse.dropWhile (fun c => c = '\n')).dropWhile (fun c => c = '\r')).reverse)

/-- `content.splitlines()` (without line terminators). -/
def splitlinesPlain (s : String) : List String :=
  (splitlinesKeep s).map dropEol

/-- ASCII decimal digit character for `d < 10`. -/
def digitChar (d : Nat) : Char := Char.ofNat (48 + d)

/-- Fuel-driven digit expansion (structural recursion so that it reduces
definitionally; any `fuel > n` yields the decimal digits of `n`). -/
def decDigitsCore (fuel : Nat) (n : Nat) : List Char :=
  match fuel with
  | 0 => []
  | fuel + 1 =>
    if n < 10 then [digitChar n]
    else decDigitsCore fuel (n / 10) ++ [digitChar (n % 10)]

/-- Decimal digit characters of a natural number (models the decimal
rendering Python performs when interpolating an `int` into an f-string). -/
def decDigits (n : Nat) : List Char :=
  decDigitsCore (n + 1) n

/-- Decimal rendering of a natural number. -/
def natToDec (n : Nat) : String := String.mk (decDigits n)

/-- `int(s)` on a list of decimal digit characters (as matched by `\d+`). -/
def digitsToNat (ds : List Char) : Nat :=
  ds.foldl (fun acc c => acc * 10 + (c.toNat - 48)) 0

/-! ## `models.py`: the shared data model -/

/-- `models.BugType`: the closed enumeration of bug categories. -/
inductive BugType where
  | LINTING
  | SYNTAX
  | LOGIC
  | TYPE_ERROR
  | IMPORT
  | INDENTATION
deriving DecidableEq, Repr

/-- `BugType.value`: the string value of each enum member. -/
def bugTypeValue : BugType → String
  | .LINTING => "LINTING"
  | .SYNTAX => "SYNTAX"
  | .LOGIC => "LOGIC"
  | .TYPE_ERROR => "TYPE_ERROR"
  | .IMPORT => "IMPORT"
  | .INDENTATION => "INDENTATION"

/-- `models.FixStatus`. -/
inductive FixStatus where
  | FIXED
  | FAILED
deriving DecidableEq, Repr

/-- `models.RunStatus`. -/
inductive RunStatus where
  | RUNNING
  | PASSED
  | FAILED
deriving DecidableEq, Repr

/-! ## `agents/failure_parser_agent.py`: the bug classifier -/

/-- `test_agent.TestFailure` (also the record shape consumed by the
failure parser). -/
structure TestFailure where
  file : String
  line_number : Nat
  message : String
  error_type : String
  full_traceback : String
deriving DecidableEq, Repr

/-- `failure_parser_agent.ParsedFailure`. -/
structure ParsedFailure where
  file : String
  line_number : Nat
  bug_type : BugType
  raw_message : String
  error_type : String
deriving DecidableEq, Repr

/-- `FailureParserAgent._classify_bug_type`, translated if-for-if from the
source: priority-ordered case-insensitive keyword tests, `LOGIC` as the final
fallback. -/
def classifyBugType (error_type message : String) : BugType :=
  let errorLower := pyToLower error_type
  let messageLower := pyToLower message
  -- Import errors
  if strContains errorLower "importerror" || strContains errorLower "modulenotfounderror" then
    .IMPORT
  else if strContains messageLower "import" &&
      (strContains messageLower "cannot" || strContains messageLower "no module") then
    .IMPORT
  else if strContains errorLower "nameerror" && strContains messageLower "is not defined" then
    .IMPORT
  -- Syntax errors
  else if strContains errorLower "syntaxerror" || strContains errorLower "invalidsyntax" then
    .SYNTAX
  else if strContains messageLower "syntax" then
    .SYNTAX
  -- Indentation errors
  else if strContains errorLower "indentationerror" || strContains errorLower "taberror" then
    .INDENTATION
  else if strContains messageLower "indent" || strContains messageLower "unexpected indent" then
    .INDENTATION
  -- Type errors
  else if strContains errorLower "typeerror" || strContains errorLower "attributeerror" then
    .TYPE_ERROR
  else if strContains messageLower "type" &&
      (strContains messageLower "expected" || strContains messageLower "got") then
    .TYPE_ERROR
  -- Linting
  else if strContains messageLower "lint" || strContains messageLower "flake8" ||
      strContains messageLower "pylint" then
    .LINTING
  -- Default to LOGIC
  else
    .LOGIC

/-- `FailureParserAgent.parse_failure`. -/
def parseFailure (file : String) (line_number : Nat) (message : String)
    (error_type : String) : ParsedFailure :=
  { file := file
    line_number := line_number
    bug_type := classifyBugType error_type message
    raw_message := message
    error_type := error_type }

/-- Rule 1 of the spec's priority list (IMPORT): import/module-resolution
error type, or an import-failure keyword pair in the message, or a
name-resolution error whose message says the name is not defined. -/
def rule1 (error_type message : String) : Bool :=
  let errorLower := pyToLower error_type
  let messageLower := pyToLower message
  (strContains errorLower "importerror" || strContains errorLower "modulenotfounderror") ||
  (strContains messageLower "import" &&
    (strContains messageLower "cannot" || strContains messageLower "no module")) ||
  (strContains errorLower "nameerror" && strContains messageLower "is not defined")

/-- Rule 2 (SYNTAX). -/
def rule2 (error_type message : String) : Bool :=
  (strContains (pyToLower error_type) "syntaxerror" || strContains (pyToLower error_type) "invalidsyntax") ||
  strContains (pyToLower message) "syntax"

/-- Rule 3 (INDENTATION). -/
def rule3 (error_type message : String) : Bool :=
  (strContains (pyToLower error_type) "indentationerror" || strContains (pyToLower error_type) "taberror") ||
  (strContains (pyToLower message) "indent" || strContains (pyToLower message) "unexpected indent")

/-- Rule 4 (TYPE_ERROR). -/
def rule4 (error_type message : String) : Bool :=
  (strContains (pyToLower error_type) "typeerror" || strContains (pyToLower error_type) "attributeerror") ||
  (strContains (pyToLower message) "type" &&
    (strContains (pyToLower message) "expected" || strContains (pyToLower message) "got"))

/-- Rule 5 (LINTING). -/
def rule5 (_error_type message : String) : Bool :=
  strContains (pyToLower message) "lint" || strContains (pyToLower message) "flake8" ||
  strContains (pyToLower message) "pylint"

/-- The classifier as the spec phrases it: the five rules tried in priority
order with first match winning, `LOGIC` otherwise. -/
def classifyByRules (error_type message : String) : BugType :=
  if rule1 error_type message then .IMPORT
  else if rule2 error_type message then .SYNTAX
  else if rule3 error_type message then .INDENTATION
  else if rule4 error_type message then .TYPE_ERROR
  else if rule5 error_type message then .LINTING
  else .LOGIC

/-! ## `agents/score_agent.py` -/

/-- `score_agent.ScoreBreakdown`. -/
structure ScoreBreakdown where
  base_score : Int
  time_bonus : Int
  commit_penalty : Int
  final_score : Int
deriving DecidableEq, Repr

/-- `ScoreAgent.calculate_score`. -/
def calculateScore (execution_time_seconds : Int) (commits : Int) : ScoreBreakdown :=
  let base_score : Int := 100
  let time_bonus : Int := if execution_time_seconds < 300 then 10 else 0
  let commit_penalty : Int := if commits > 20 then (commits - 20) * 2 else 0
  let final_score : Int := max (base_score + time_bonus - commit_penalty) 0
  { base_score := base_score
    time_bonus := time_bonus
    commit_penalty := commit_penalty
    final_score := final_score }

/-! ## `agents/git_agent.py`: branch-name construction and validation -/

/-- The character class `[A-Z_]`. -/
def isAZU (c : Char) : Bool :=
  ('A' ≤ c && c ≤ 'Z') || c = '_'

/-- `re.sub(r"_+", "_", s)`: collapse each run of underscores to one. -/
def collapseUnd : List Char → List Char
  | [] => []
  | [c] => [c]
  | a :: b :: rest =>
    if a = '_' && b = '_' then collapseUnd (b :: rest)
    else a :: collapseUnd (b :: rest)

/-- `s.strip('_')`: drop leading and trailing underscores. -/
def stripUnd (cs : List Char) : List Char :=
  ((cs.dropWhile (fun c => c = '_')).reverse.dropWhile (fun c => c = '_')).reverse

/-- `GitAgent._normalize`: uppercase (ASCII), spaces to underscores, drop
every character outside `[A-Z_]`, collapse underscore runs, strip
underscores at both ends. -/
def normalizeName (value : String) : String :=
  let uppercase := ((value.data.map Char.toUpper).map (fun c => if c = ' ' then '_' else c))
  let normalized := uppercase.filter isAZU
  String.mk (stripUnd (collapseUnd normalized))

/-- `GitAgent.build_branch_name`. -/
def buildBranchName (team_name leader_name : String) : String :=
  normalizeName team_name ++ "_" ++ normalizeName leader_name ++ "_AI_Fix"

/-- Python `s.endswith(suffix)`. -/
def strEndsWith (s suffix : String) : Bool :=
  suffix.data.isSuffixOf s.data

/-- `re.fullmatch(r"^[A-Z_]+_AI_Fix$", s)` as a Boolean test: the string is
a non-empty `[A-Z_]` block followed by the literal `_AI_Fix`. -/
def fullmatchBranch (s : String) : Bool :=
  let cs := s.data
  let n := cs.length
  decide (8 ≤ n) && (cs.take (n - 7)).all isAZU &&
    decide (cs.drop (n - 7) = ("_AI_Fix").data)

/-- `GitAgent.validate_branch_name`. -/
def validateBranchName (branch_name : String) : Bool :=
  fullmatchBranch branch_name && strEndsWith branch_name "_AI_Fix"

/-- Every character that `collapseUnd` emits came from its input. -/
theorem collapseUnd_subset (cs : List Char) : ∀ c ∈ collapseUnd cs, c ∈ cs := by
  induction cs with
  | nil => simp [collapseUnd]
  | cons a t ih =>
    cases t with
    | nil => simp [collapseUnd]
    | cons b r =>
      intro c hc
      unfold collapseUnd at hc
      split at hc
      · exact List.mem_cons_of_mem a (ih c hc)
      · rcases List.mem_cons.mp hc with h | h
        · exact h ▸ List.mem_cons_self a (b :: r)
        · exact List.mem_cons_of_mem a (ih c h)

/-- Every character of a normalized name lies in `[A-Z_]`. -/
theorem normalizeName_chars (v : String) : ∀ c ∈ (normalizeName v).data, isAZU c = true := by
  intro c hc
  unfold normalizeName at hc
  simp only [String.data] at hc
  unfold stripUnd at hc
  rw [List.mem_reverse] at hc
  have hc2 := (List.dropWhile_sublist _).subset hc
  rw [List.mem_reverse] at hc2
  have hc3 := (List.dropWhile_sublist _).subset hc2
  have hc4 := collapseUnd_subset _ c hc3
  exact (List.mem_filter.mp hc4).2

/-! ## `agents/fix_agent.py`: descriptor generation -/

/-- `fix_agent.FixProposal`. -/
structure FixProposal where
  file : String
  line_number : Nat
  bug_type : BugType
  commit_message : String
  strict_output : String
deriving DecidableEq, Repr

/-- `FixAgent._generate_deterministic_fix`'s `FIX_MAPPING`: the fixed
one-to-one map from bug category to fix phrase.  The source's membership
check (raising on an unknown category) is unreachable for members of the
closed enumeration, which is all this embedding can represent. -/
def fixMapping : BugType → String
  | .IMPORT => "add the missing import statement"
  | .SYNTAX => "add the missing colon at the correct position"
  | .INDENTATION => "correct the indentation"
  | .TYPE_ERROR => "correct the type usage"
  | .LOGIC => "correct the return statement logic"
  | .LINTING => "remove the unused import statement"

/-- Tokens of an anchored regular expression: a literal, or one-or-more
repetitions of a character class (`X+`). -/
inductive RTok where
  | lit : List Char → RTok
  | cls : (Char → Bool) → RTok

/-- Python `$` at the end of `re.match`: end of string, or just before one
final newline. -/
def matchEnd : List Char → Bool
  | [] => true
  | ['\n'] => true
  | _ => false

/-- One-or-more repetition of class `p`: consume at least one `p`-character,
then try the continuation `next` after every prefix (full backtracking). -/
def clsLoop (p : Char → Bool) (next : List Char → Bool) : List Char → Bool
  | [] => false
  | c :: rest => p c && (next rest || clsLoop p next rest)

/-- Backtracking matcher for an anchored pattern `^t₁t₂...$` given as a
token list, with Python `$` semantics at the end.  `cls` tries every split
point, so the result is `true` exactly when some decomposition matches. -/
def reMatch : List RTok → List Char → Bool
  | [], cs => matchEnd cs
  | .lit l :: ts, cs => l.isPrefixOf cs && reMatch ts (cs.drop l.length)
  | .cls p :: ts, cs => clsLoop p (reMatch ts) cs

/-- The class `.` of Python regexes (anything but a newline; no DOTALL). -/
def dotClass (c : Char) : Bool := c ≠ '\n'

/-- The token list of the strict-output pattern
`^[A-Z_]+ error in .+ line \d+ → Fix: .+$`. -/
def strictToks : List RTok :=
  [.cls isAZU, .lit (" error in ").data, .cls dotClass, .lit (" line ").data,
   .cls Char.isDigit, .lit (" → Fix: ").data, .cls dotClass]

/-- `FixAgent._validate_strict_output_format`'s `re.match` test. -/
def matchStrict (s : String) : Bool := reMatch strictToks s.data

/-- `FixAgent.generate_fix`: build the strict output string, validate it
against the strict pattern, and either return the proposal or raise
(modelled as `Except.error`). -/
def generateFix (file : String) (line_number : Nat) (bug_type : BugType)
    (_message : String) : Except String FixProposal :=
  let specific_fix := fixMapping bug_type
  let strict_output := bugTypeValue bug_type ++ " error in " ++ file ++ " line " ++
    natToDec line_number ++ " → Fix: " ++ specific_fix
  if matchStrict strict_output then
    .ok { file := file
          line_number := line_number
          bug_type := bug_type
          commit_message := "[AI-AGENT] Fix " ++ pyToLower (bugTypeValue bug_type) ++
            " issue in " ++ file
          strict_output := strict_output }
  else
    .error ("Strict output format violation: " ++ strict_output)

/-! ## `agents/fix_agent.py`: heuristic source transformation -/

/-- Positional match of `no module named ['\"]?(\w+)['\"]?`. -/
def moduleNameAt (cs : List Char) : Option String :=
  if ("no module named ").data.isPrefixOf cs then
    let rest := cs.drop 16
    let rest2 := match rest with
      | c :: t => if c = Char.ofNat 39 || c = '"' then t else c :: t
      | [] => []
    let word := rest2.takeWhile isWordChar
    if word.isEmpty then none else some (String.mk word)
  else none

/-- `re.search(r"no module named ['\"]?(\w+)['\"]?", s)`: extracted module
name of the leftmost match. -/
def extractModuleName (s : String) : Option String :=
  searchPos moduleNameAt s.data

/-- Positional match of `name ['\"]?(\w+)['\"]? is not defined`. -/
def undefinedNameAt (cs : List Char) : Option String :=
  if ("name ").data.isPrefixOf cs then
    let rest := cs.drop 5
    let rest2 := match rest with
      | c :: t => if c = Char.ofNat 39 || c = '"' then t else c :: t
      | [] => []
    let word := rest2.takeWhile isWordChar
    let after := rest2.drop word.length
    let after2 := match after with
      | c :: t => if c = Char.ofNat 39 || c = '"' then t else c :: t
      | [] => []
    if !word.isEmpty && ((" is not defined").data.isPrefixOf after2) then
      some (String.mk word)
    else none
  else none

/-- `re.search(r"name ['\"]?(\w+)['\"]? is not defined", s)`: extracted
name of the leftmost match. -/
def extractUndefinedName (s : String) : Option String :=
  searchPos undefinedNameAt s.data

/-- The `common_imports` lookup of well-known names. -/
def commonImports : List (String × String) :=
  [("pytest", "import pytest"),
   ("unittest", "import unittest"),
   ("os", "import os"),
   ("sys", "import sys"),
   ("json", "import json"),
   ("time", "import time"),
   ("datetime", "from datetime import datetime"),
   ("path", "from pathlib import Path"),
   ("calculator", "from calculator import Calculator"),
   ("add", "from math_utils import add, multiply, divide"),
   ("multiply", "from math_utils import add, multiply, divide"),
   ("divide", "from math_utils import add, multiply, divide")]

/-- The compound-statement keywords tested by the missing-colon fix. -/
def colonKeywords : List String :=
  ["def ", "class ", "if ", "elif ", "else", "for ", "while ", "try",
   "except", "finally", "with "]

/-- `FixAgent._generate_fix_with_heuristics` (also the entire body of
`_generate_fixed_content`, which just forwards to it).  The TYPE_ERROR and
LOGIC blocks of the source only log and never return, so they contribute
nothing to the result; the final fall-through returns `""` (no fix). -/
def generateFixWithHeuristics (original_content : String) (line_number : Nat)
    (bug_type : BugType) (error_type message : String) : String :=
  let lines := splitlinesKeep original_content
  let messageLower := pyToLower message
  let errorLower := pyToLower error_type
  -- Import errors
  let importResult : Option String :=
    if decide (bug_type = BugType.IMPORT) || strContains errorLower "import" then
      -- ModuleNotFoundError: package not installed, no code fix available
      if strContains errorLower "modulenotfounderror" ||
          (strContains messageLower "no module named" && !(strContains messageLower "import")) then
        some ""
      else
        (if strContains messageLower "no module named" && strContains messageLower "import" then
          (extractModuleName messageLower).map
            (fun module_name => "import " ++ module_name ++ "\n\n" ++ original_content)
         else none)
        <|>
        (if strContains messageLower "name" && strContains messageLower "is not defined" then
          (extractUndefinedName messageLower).bind
            (fun name => (commonImports.lookup (pyToLower name)).map
              (fun imp => imp ++ "\n\n" ++ original_content))
         else none)
    else none
  match importResult with
  | some s => s
  | none =>
  -- Syntax errors
  let syntaxResult : Option String :=
    if decide (bug_type = BugType.SYNTAX) then
      if 0 < line_number && line_number ≤ lines.length then
        let line := lines.getD (line_number - 1) ""
        (if strContains messageLower ("expected " ++ sq ++ ":" ++ sq) ||
            strContains messageLower "invalid syntax" then
          if !(pyStrip line).isEmpty && !(strEndsWith (pyRStrip line) ":") then
            if colonKeywords.any (fun kw => strContains line kw) then
              some (String.join (lines.set (line_number - 1) (pyRStrip line ++ ":" ++ "\n")))
            else none
          else none
         else none)
        <|>
        (if strContains messageLower "unclosed" || strContains messageLower "unmatched" then
          let openCount : Int := (line.data.count '(' : Int) - (line.data.count ')' : Int)
          if 0 < openCount then
            some (String.join (lines.set (line_number - 1)
              (pyRStrip line ++ String.mk (List.replicate openCount.toNat ')') ++ "\n")))
          else none
         else none)
      else none
    else none
  match syntaxResult with
  | some s => s
  | none =>
  -- Indentation errors: re-indent the line to the previous line's indent
  let indentResult : Option String :=
    if decide (bug_type = BugType.INDENTATION) then
      if 0 < line_number && line_number ≤ lines.length then
        if 1 < line_number then
          let prev_line := lines.getD (line_number - 2) ""
          let prev_indent := prev_line.data.length - (pyLStrip prev_line).data.length
          let current_line := lines.getD (line_number - 1) ""
          let current_content := pyLStrip current_line
          some (String.join (lines.set (line_number - 1)
            (String.mk (List.replicate prev_indent ' ') ++ current_content)))
        else none
      else none
    else none
  match indentResult with
  | some s => s
  | none => ""

/-- `fs.lookup`-based write: replace the content stored at `path`. -/
def fsWrite (fs : List (String × String)) (path content : String) :
    List (String × String) :=
  fs.map (fun p => if p.1 = path then (p.1, content) else p)

/-- `FixAgent.apply_fix` over an explicit filesystem (association list from
path to content).  `astParseOk` is the oracle for the standard library's
`ast.parse` syntax validation; `readOk`/`writeOk` inject the I/O faults that
the source catches and converts to `False`.  The context string computed by
the source is used only for logging and is omitted. -/
def applyFix (fs : List (String × String)) (astParseOk : String → Bool)
    (readOk writeOk : Bool) (repo_path file : String) (line_number : Nat)
    (bug_type : BugType) (message error_type : String) :
    Bool × List (String × String) :=
  let file_path := repo_path ++ "/" ++ file
  match fs.lookup file_path with
  | none => (false, fs)
  | some original_content =>
    if !readOk then (false, fs)
    else
      let original_lines := splitlinesPlain original_content
      if line_number < 1 || original_lines.length < line_number then (false, fs)
      else
        let fixed_content := generateFixWithHeuristics original_content line_number
          bug_type error_type message
        if decide (fixed_content = "") || decide (fixed_content = original_content) then (false, fs)
        else if !(astParseOk fixed_content) then (false, fs)
        else if !writeOk then (false, fs)
        else (true, fsWrite fs file_path fixed_content)

/-! ## `agents/test_agent.py`: the failure-extraction engine -/

/-- Python `output.split('\n')`. -/
def splitNlAux : List Char → List Char → List String
  | [], acc => [String.mk acc.reverse]
  | '\n' :: rest, acc => String.mk acc.reverse :: splitNlAux rest []
  | c :: rest, acc => splitNlAux rest (c :: acc)

def splitNl (s : String) : List String := splitNlAux s.data []

/-- `'\n'.join(lines)`. -/
def joinNl : List String → String
  | [] => ""
  | [s] => s
  | s :: rest => s ++ "\n" ++ joinNl rest

/-- The character class `[\w./\\-]` of the pytest location pattern. -/
def isLocClass (c : Char) : Bool :=
  isWordChar c || c = '.' || c = '/' || c = '\\' || c = '-'

/-- `re.search(r'^([\w./\\-]+\.py):(\d+):\s+in\s+\w+', line, re.MULTILINE)`:
with no newline inside a line, `^` only matches at position 0, and since `:`
is outside the class, the group is forced to be the maximal class run, which
must end in `.py`. -/
def matchPytestLocation (line : String) : Option (String × Nat) :=
  let cs := line.data
  let run := cs.takeWhile isLocClass
  if decide (4 ≤ run.length) && (".py").data.isSuffixOf run then
    match cs.drop run.length with
    | ':' :: rest1 =>
      let digits := rest1.takeWhile Char.isDigit
      if digits.isEmpty then none
      else
        match rest1.drop digits.length with
        | ':' :: rest3 =>
          let ws := rest3.takeWhile pyIsSpace
          if ws.isEmpty then none
          else
            match rest3.drop ws.length with
            | 'i' :: 'n' :: rest5 =>
              let ws2 := rest5.takeWhile pyIsSpace
              if ws2.isEmpty then none
              else if ((rest5.drop ws2.length).takeWhile isWordChar).isEmpty then none
              else some (String.mk run, digitsToNat digits)
            | _ => none
        | _ => none
    | _ => none
  else none

/-- Does a word-character run end in `Error`/`Exception`/`Failure` with at
least one extra leading character (i.e. match `\w+(?:Error|Exception|Failure)`)? -/
def errSuffixStrict (word : List Char) : Bool :=
  (("Error").data.isSuffixOf word && decide (5 < word.length)) ||
  (("Exception").data.isSuffixOf word && decide (9 < word.length)) ||
  (("Failure").data.isSuffixOf word && decide (7 < word.length))

/-- `\w*(?:Error|Exception|Failure)`: the leading part may be empty. -/
def errSuffixLoose (word : List Char) : Bool :=
  ("Error").data.isSuffixOf word || ("Exception").data.isSuffixOf word ||
  ("Failure").data.isSuffixOf word

/-- `re.search(r'^E\s+(\w+(?:Error|Exception|Failure)):\s*(.+)$', line,
re.MULTILINE)`.  The stored message is `group(2).strip()`, which equals
stripping everything after the colon. -/
def matchPytestError (line : String) : Option (String × String) :=
  match line.data with
  | 'E' :: rest =>
    let ws := rest.takeWhile pyIsSpace
    if ws.isEmpty then none
    else
      let afterWs := rest.drop ws.length
      let word := afterWs.takeWhile isWordChar
      if !(errSuffixStrict word) then none
      else
        match afterWs.drop word.length with
        | ':' :: rest2 =>
          if rest2.isEmpty then none
          else some (String.mk word, pyStrip (String.mk rest2))
        | _ => none
  | _ => none

/-- Positional match of `File "([^"]+)", line (\d+)`. -/
def tracebackAt (cs : List Char) : Option (String × Nat) :=
  if ("File \"").data.isPrefixOf cs then
    let rest := cs.drop 6
    let inner := rest.takeWhile (fun c => c ≠ '"')
    if inner.isEmpty then none
    else
      match rest.drop inner.length with
      | '"' :: rest2 =>
        if (", line ").data.isPrefixOf rest2 then
          let digits := (rest2.drop 7).takeWhile Char.isDigit
          if digits.isEmpty then none
          else some (String.mk inner, digitsToNat digits)
        else none
      | _ => none
  else none

/-- `re.search` of the Python-traceback pattern anywhere in the line. -/
def matchTraceback (line : String) : Option (String × Nat) :=
  searchPos tracebackAt line.data

/-- `re.search(r'^(\w*(?:Error|Exception|Failure)):\s*(.+)', lines[j])`:
the lookahead error-line pattern; the stored message is `group(2).strip()`. -/
def matchErrorTypeLine (line : String) : Option (String × String) :=
  let word := line.data.takeWhile isWordChar
  if !(errSuffixLoose word) then none
  else
    match line.data.drop word.length with
    | ':' :: rest2 =>
      if rest2.isEmpty then none
      else some (String.mk word, pyStrip (String.mk rest2))
    | _ => none

/-- `TestAgent._normalize_file_path`: strip the repository-root prefix (and
any following slashes), then a leading `/workspace/`, then a leading `./`. -/
def normalizeFilePath (file_path repo_path : String) : String :=
  let fp1 := if strStartsWith file_path repo_path then
      lstripSlash (String.mk (file_path.data.drop repo_path.data.length))
    else file_path
  let fp2 := if strStartsWith fp1 "/workspace/" then String.mk (fp1.data.drop 11) else fp1
  if strStartsWith fp2 "./" then String.mk (fp2.data.drop 2) else fp2

/-- The rolling state of `TestAgent._parse_pytest_output`'s single
left-to-right pass. -/
structure PState where
  failures : List TestFailure
  seen : List (String × Nat)
  curFile : Option String
  curLine : Option Nat
  curErrType : String
  curMsg : String
  curTb : List String
deriving DecidableEq, Repr

def initPState : PState :=
  { failures := [], seen := [], curFile := none, curLine := none,
    curErrType := "UnknownError", curMsg := "", curTb := [] }

/-- Append the record and mark the key seen, unless the key was already
seen (`if key not in seen`): first record for a (file, line) pair wins. -/
def emitIfNew (key : String × Nat) (r : TestFailure) (st : PState) : PState :=
  if key ∈ st.seen then st
  else { st with seen := key :: st.seen, failures := st.failures ++ [r] }

/-- The `elif current_traceback: current_traceback.append(line)` branch. -/
def appendTbLine (line : String) (st : PState) : PState :=
  if st.curTb.isEmpty then st else { st with curTb := st.curTb ++ [line] }

/-- First stage of the per-line step: the pytest location pattern resets the
rolling candidate. -/
def stage1 (repo line : String) (st : PState) : PState :=
  match matchPytestLocation line with
  | some (f, n) =>
    { st with curFile := some (normalizeFilePath f repo), curLine := some n, curTb := [line] }
  | none => st

/-- Second stage: the `E   Error: message` pattern closes the pending
candidate (Python truthiness: a `None` or empty file, or a `None` or zero
line, does not count), emitting a deduplicated record and resetting the
state; otherwise the line is accumulated into a non-empty traceback
(`elif current_traceback`). -/
def stage2 (line : String) (st : PState) : PState :=
  match matchPytestError line with
  | some (et, msg) =>
    match st.curFile, st.curLine with
    | some f, some n =>
      if f ≠ "" ∧ n ≠ 0 then
        let st1 := emitIfNew (f, n) ⟨f, n, msg, et, joinNl (st.curTb ++ [line])⟩ st
        { st1 with curFile := none, curLine := none, curErrType := "UnknownError",
                   curMsg := "", curTb := [] }
      else appendTbLine line st
    | _, _ => appendTbLine line st
  | none => appendTbLine line st

/-- Lookahead of the traceback fallback: accumulate up to the next four
lines into the traceback, stopping at (and including) the first error-type
line; defaults otherwise. -/
def lookaheadScanAux (tb : String) : List String → (String × String × String)
  | [] => ("UnknownError", "Test failure", tb)
  | l :: rest =>
    let tb2 := tb ++ "\n" ++ l
    match matchErrorTypeLine l with
    | some (et, msg) => (et, msg, tb2)
    | none => lookaheadScanAux tb2 rest

/-- Third stage: the `File "...", line n` fallback, sharing the same seen
set (the source guard `key not in seen and file_path.endswith('.py')` is
written here as the `.py` test around `emitIfNew`). -/
def stage3 (repo line : String) (lookahead : List String) (st : PState) : PState :=
  match matchTraceback line with
  | none => st
  | some (f0, n) =>
    let f := normalizeFilePath f0 repo
    let result := lookaheadScanAux line lookahead
    if strEndsWith f ".py" then
      emitIfNew (f, n) ⟨f, n, result.2.1, result.1, pyStrip result.2.2⟩ st
    else st

/-- One line of the parse: the three stages of the source's loop body in
order. -/
def stepLine (repo line : String) (lookahead : List String) (st : PState) : PState :=
  stage3 repo line lookahead (stage2 line (stage1 repo line st))

/-- The single left-to-right pass with a four-line lookahead window
(`range(i + 1, min(i + 5, len(lines)))`). -/
def parseGo (repo : String) : List String → PState → PState
  | [], st => st
  | line :: rest, st => parseGo repo rest (stepLine repo line (rest.take 4) st)

/-- `TestAgent._parse_pytest_output`. -/
def parsePytestOutput (output repo_path : String) : List TestFailure :=
  (parseGo repo_path (splitNl output) initPState).failures

/-! ### `TestAgent._parse_setup_error` and `run_tests` -/

/-- The character class `[\w./]` of the setup-error location pattern. -/
def isSetupClass (c : Char) : Bool :=
  isWordChar c || c = '.' || c = '/'

/-- Positional match of `([\w./]+\.py):(\d+):`. -/
def setupLocAt (cs : List Char) : Option (String × Nat) :=
  let run := cs.takeWhile isSetupClass
  if decide (4 ≤ run.length) && (".py").data.isSuffixOf run then
    match cs.drop run.length with
    | ':' :: rest1 =>
      let digits := rest1.takeWhile Char.isDigit
      if digits.isEmpty then none
      else
        match rest1.drop digits.length with
        | ':' :: _ => some (String.mk run, digitsToNat digits)
        | _ => none
    | _ => none
  else none

def searchSetupLoc (line : String) : Option (String × Nat) :=
  searchPos setupLocAt line.data

/-- Positional match of `E\s+(\w+(?:Error|Exception)?)\s*:\s*(.+)` (the
optional suffix makes the group an arbitrary word run). -/
def setupErrAt (cs : List Char) : Option (String × String) :=
  match cs with
  | 'E' :: rest =>
    let ws := rest.takeWhile pyIsSpace
    if ws.isEmpty then none
    else
      let afterWs := rest.drop ws.length
      let word := afterWs.takeWhile isWordChar
      if word.isEmpty then none
      else
        let afterWord := afterWs.drop word.length
        let ws2 := afterWord.takeWhile pyIsSpace
        match afterWord.drop ws2.length with
        | ':' :: rest2 =>
          if rest2.isEmpty then none
          else some (String.mk word, pyStrip (String.mk rest2))
        | _ => none
  | _ => none

def searchSetupErr (line : String) : Option (String × String) :=
  searchPos setupErrAt line.data

/-- The rolling state of `_parse_setup_error`. -/
structure SetupState where
  errorFile : Option String
  errorLine : Nat
  errorType : String
  errorMessage : String
  fullTb : String
deriving DecidableEq, Repr

/-- Python truthiness of the `error_file` variable (`None` and `""` are
falsy). -/
def setupTruthy : Option String → Bool
  | none => false
  | some s => decide (s ≠ "")

/-- One line of `_parse_setup_error`'s loop. -/
def setupStep (repo line : String) (st : SetupState) : SetupState :=
  let st1 := match searchSetupLoc line with
    | some (f, n) =>
      if !(setupTruthy st.errorFile) then
        { st with errorFile := some (normalizeFilePath f repo), errorLine := n }
      else st
    | none => st
  let st2 := if strStartsWith (pyStrip line) "E   " then
      match searchSetupErr line with
      | some (et, msg) => { st1 with errorType := et, errorMessage := msg }
      | none => st1
    else st1
  if setupTruthy st2.errorFile || strStartsWith (pyStrip line) "E   " then
    { st2 with fullTb := st2.fullTb ++ line ++ "\n" }
  else st2

/-- `TestAgent._parse_setup_error`. -/
def parseSetupError (output repo_path : String) : Option TestFailure :=
  let final := (splitNl output).foldl (fun st line => setupStep repo_path line st)
    { errorFile := none, errorLine := 1, errorType := "ImportError",
      errorMessage := "Setup/configuration error", fullTb := "" }
  match final.errorFile with
  | some f =>
    if f ≠ "" then
      some { file := f, line_number := final.errorLine, message := final.errorMessage,
             error_type := final.errorType, full_traceback := pyStrip final.fullTb }
    else none
  | none => none

/-- `test_agent.TestRunResult`. -/
structure TestRunResultM where
  passed : Bool
  failures : List TestFailure
deriving DecidableEq, Repr

/-- `TestAgent.run_tests` from the point where the sandboxed pytest process
has returned `(returncode, stdout, stderr)` (test-file discovery and the
subprocess itself are environment I/O outside this model): exit 0 is a pass;
exit 4 first tries the setup-error parse; otherwise the extraction engine
runs, and zero extracted records on a failing run raises (`Except.error`). -/
def runTestsModel (returncode : Int) (stdout stderr repo_path : String) :
    Except String TestRunResultM :=
  let combined_output := stdout ++ "\n" ++ stderr
  if returncode = 0 then .ok { passed := true, failures := [] }
  else
    match (if returncode = 4 then parseSetupError combined_output repo_path else none) with
    | some setup_failure => .ok { passed := false, failures := [setup_failure] }
    | none =>
      let failures := parsePytestOutput combined_output repo_path
      if failures.isEmpty then
        .error "Tests failed but no structured failures could be extracted from pytest output"
      else .ok { passed := false, failures := failures }

/-! ## `agents/orchestrator.py`: the healing-loop state machine -/

/-- `models.FixRecord`. -/
structure FixRecordM where
  file : String
  bug_type : BugType
  line_number : Nat
  commit_message : String
  status : FixStatus
  strict_output : String
deriving DecidableEq, Repr

/-- The fields of `models.ResultsSchema` that the healing loop writes
(identification strings such as repository/team/branch are copied from the
request and omitted). -/
structure ResultsM where
  total_failures : Nat
  total_fixes : Nat
  iterations_used : Nat
  commits : Nat
  final_status : RunStatus
  execution_time_seconds : Int
  score : Int
  score_base : Int
  score_time_bonus : Int
  score_commit_penalty : Int
  fixes : List FixRecordM
  ci_timeline : List (Nat × RunStatus)
deriving DecidableEq, Repr

/-- `models.RunState` (run id and timestamps omitted). -/
structure RunStateM where
  status : RunStatus
  results : ResultsM
deriving DecidableEq, Repr

/-- The possible outcomes of one `test_agent.run_tests` call: a pass, a
parsed failure list, or a raised exception (extraction failure, missing
test files, sandbox errors). -/
inductive TestAgentOutcome where
  | passed
  | failed (failures : List TestFailure)
  | raised
deriving Repr

/-- The external collaborators of one run, as oracle functions of the
iteration number: the sandboxed test execution, the filesystem-dependent
result of `fix_agent.apply_fix` per (iteration, failure index), the
`commit_all_changes` result, the CI poll verdict, and the measured wall
clock.  The classifier and `generate_fix` are this repository's own logic
and are wired in directly. -/
structure OrchestratorEnv where
  retryLimit : Nat
  isLocalRepo : Bool
  testOutcome : Nat → TestAgentOutcome
  applyFixOutcome : Nat → Nat → Bool
  commitOutcome : Nat → Bool
  ciOutcome : Nat → Bool
  elapsedSeconds : Int

/-- The run state created by `start_run`. -/
def initResults : ResultsM :=
  { total_failures := 0, total_fixes := 0, iterations_used := 0, commits := 0,
    final_status := RunStatus.RUNNING, execution_time_seconds := 0,
    score := 0, score_base := 100, score_time_bonus := 0, score_commit_penalty := 0,
    fixes := [], ci_timeline := [] }

/-- The per-failure body of the failed-tests branch: classify, attempt the
fix, generate the proposal (whose validation failure raises, aborting the
run with the partial results — the `Except.error` case), enforce the commit
prefix, and append a `FixRecord` whose status reflects whether the fix was
applied; only an applied fix increments the `fixes_applied` counter. -/
def processFailures (env : OrchestratorEnv) (iter : Nat) :
    List TestFailure → Nat → ResultsM → Nat → Except ResultsM (ResultsM × Nat)
  | [], _, res, fixesApplied => .ok (res, fixesApplied)
  | failure :: rest, idx, res, fixesApplied =>
    let parsed := parseFailure failure.file failure.line_number failure.message
      failure.error_type
    let fix_applied := env.applyFixOutcome iter idx
    match generateFix parsed.file parsed.line_number parsed.bug_type parsed.raw_message with
    | .error _ => .error res
    | .ok proposal =>
      if strStartsWith proposal.commit_message "[AI-AGENT]" then
        let status := if fix_applied then FixStatus.FIXED else FixStatus.FAILED
        let fixesApplied2 := if fix_applied then fixesApplied + 1 else fixesApplied
        let res2 := { res with
                      fixes := res.fixes ++
                        [{ file := proposal.file, bug_type := proposal.bug_type,
                           line_number := proposal.line_number,
                           commit_message := proposal.commit_message,
                           status := status,
                           strict_output := proposal.strict_output }] }
        processFailures env iter rest (idx + 1) res2 fixesApplied2
      else .error res

/-- The bounded retry loop of `execute_run` (iterations `iter`, `iter+1`,
... while fuel lasts).  Returns the state and whether an exception
aborted the loop. -/
def loopExec (env : OrchestratorEnv) : Nat → Nat → RunStateM → RunStateM × Bool
  | _, 0, st => (st, false)
  | iter, rem + 1, st =>
    let st := { st with results := { st.results with iterations_used := iter } }
    match env.testOutcome iter with
    | .raised => (st, true)
    | .passed =>
      if env.isLocalRepo then
        ({ status := RunStatus.PASSED,
           results := { st.results with
                        final_status := RunStatus.PASSED,
                        ci_timeline := st.results.ci_timeline ++
                          [(iter, RunStatus.PASSED)] } }, false)
      else
        let ci := env.ciOutcome iter
        let res := { st.results with
                     ci_timeline := st.results.ci_timeline ++
                       [(iter, if ci then RunStatus.PASSED else RunStatus.FAILED)] }
        if ci then
          ({ status := RunStatus.PASSED,
             results := { res with final_status := RunStatus.PASSED } }, false)
        else
          loopExec env (iter + 1) rem { st with results := res }
    | .failed failures =>
      let res := { st.results with
                   total_failures := st.results.total_failures + failures.length }
      match processFailures env iter failures 0 res 0 with
      | .error res2 => ({ st with results := res2 }, true)
      | .ok (res2, fixesApplied) =>
        let res3 := if 0 < fixesApplied then
            (if env.commitOutcome iter then { res2 with commits := res2.commits + 1 }
             else res2)
          else res2
        let ci := env.ciOutcome iter
        let res4 := { res3 with
                      total_fixes := res3.fixes.length,
                      ci_timeline := res3.ci_timeline ++
                        [(iter, if ci then RunStatus.PASSED else RunStatus.FAILED)] }
        if ci then
          ({ status := RunStatus.PASSED,
             results := { res4 with final_status := RunStatus.PASSED } }, false)
        else
          loopExec env (iter + 1) rem { st with results := res4 }

/-- `OrchestratorAgent.execute_run`: the loop, the non-PASSED/except
finalization to FAILED, and the `finally` block (elapsed time, `total_fixes
= len(fixes)`, scoring). -/
def executeRun (env : OrchestratorEnv) : RunStateM :=
  let r := loopExec env 1 env.retryLimit { status := RunStatus.RUNNING, results := initResults }
  let st1 := r.1
  let st2 := if r.2 then
      { st1 with
        status := RunStatus.FAILED,
        results := { st1.results with final_status := RunStatus.FAILED } }
    else if st1.status ≠ RunStatus.PASSED then
      { st1 with
        status := RunStatus.FAILED,
        results := { st1.results with final_status := RunStatus.FAILED } }
    else st1
  let score := calculateScore env.elapsedSeconds (st2.results.commits : Int)
  { st2 with
    results := { st2.results with
                 total_fixes := st2.results.fixes.length,
                 execution_time_seconds := env.elapsedSeconds,
                 score_base := score.base_score,
                 score_time_bonus := score.time_bonus,
                 score_commit_penalty := score.commit_penalty,
                 score := score.final_score } }

/-! ## Claim theorems (first group) -/

/-- C9: branch-name construction/validation round-trip: for every pair of
input strings, `validate_branch_name (build_branch_name team leader)` is
`True` — normalization always yields a name matching `^[A-Z_]+_AI_Fix$`,
even when a normalized component is empty. -/
theorem c9_branch_roundtrip (team_name leader_name : String) :
    validateBranchName (buildBranchName team_name leader_name) = true := by
  have hdata : (buildBranchName team_name leader_name).data =
      ((normalizeName team_name).data ++ '_' :: (normalizeName leader_name).data) ++
        ("_AI_Fix").data := by
    unfold buildBranchName
    simp [String.data_append]
  set W := (normalizeName team_name).data ++ '_' :: (normalizeName leader_name).data with hW
  have hWchars : ∀ c ∈ W, isAZU c = true := by
    intro c hc
    rw [hW] at hc
    rcases List.mem_append.mp hc with h | h
    · exact normalizeName_chars _ c h
    · rcases List.mem_cons.mp h with h | h
      · subst h; rfl
      · exact normalizeName_chars _ c h
  have hWpos : 1 ≤ W.length := by
    rw [hW]
    simp
    omega
  have hlen : (buildBranchName team_name leader_name).data.length = W.length + 7 := by
    rw [hdata]
    simp
  have hn7 : (buildBranchName team_name leader_name).data.length - 7 = W.length := by
    omega
  unfold validateBranchName fullmatchBranch strEndsWith
  rw [Bool.and_eq_true, Bool.and_eq_true, Bool.and_eq_true]
  refine ⟨⟨⟨?_, ?_⟩, ?_⟩, ?_⟩
  · simp only [hlen]
    exact decide_eq_true (by omega)
  · rw [hn7, hdata, List.take_left' rfl]
    exact List.all_eq_true.mpr hWchars
  · rw [hn7, hdata, List.drop_left' rfl]
    exact decide_eq_true rfl
  · rw [List.isSuffixOf_iff_suffix, hdata]
    exact ⟨W, rfl⟩


/-- C1: the bug classifier is a pure, total function of
`(error_type, message)`: it always returns exactly one `BugType` (it is a
Lean function into the closed enumeration), it agrees everywhere with the
priority-ordered first-match-wins evaluation of rules 1..5 (case-insensitive
keyword tests), and it returns `LOGIC` if and only if none of rules 1-5
(IMPORT, SYNTAX, INDENTATION, TYPE_ERROR, LINTING) match. -/
theorem c1_classifier_priority_rules (error_type message : String) :
    classifyBugType error_type message = classifyByRules error_type message ∧
    (classifyBugType error_type message = .LOGIC ↔
      rule1 error_type message = false ∧ rule2 error_type message = false ∧
      rule3 error_type message = false ∧ rule4 error_type message = false ∧
      rule5 error_type message = false) := by
  have chain : ∀ {α : Type} (A B : Bool) (x k : α),
      (if A then x else if B then x else k) = (if A || B then x else k) := by
    intro α A B x k
    cases A <;> cases B <;> simp
  have h : classifyBugType error_type message = classifyByRules error_type message := by
    unfold classifyBugType classifyByRules rule1 rule2 rule3 rule4 rule5
    simp only [chain, Bool.or_assoc]
  refine ⟨h, ?_⟩
  rw [h]
  unfold classifyByRules
  cases h1 : rule1 error_type message <;>
    cases h2 : rule2 error_type message <;>
    cases h3 : rule3 error_type message <;>
    cases h4 : rule4 error_type message <;>
    cases h5 : rule5 error_type message <;>
    simp

/-- C5: the scoring function is pure and deterministic: base 100, a time
bonus of 10 exactly when elapsed seconds is below 300, a commit penalty of
`2*(commits-20)` exactly when commits exceed 20, final score
`max 0 (base + bonus - penalty)`; in particular `score(299,5) = 110`,
`score(400,25) = 90` and `score(10,0) = 110`. -/
theorem c5_score (t c : Int) (_ht : 0 ≤ t) (_hc : 0 ≤ c) :
    (calculateScore t c).base_score = 100 ∧
    (calculateScore t c).time_bonus = (if t < 300 then 10 else 0) ∧
    (calculateScore t c).commit_penalty = (if c > 20 then 2 * (c - 20) else 0) ∧
    (calculateScore t c).final_score =
      max 0 ((100 : Int) + (if t < 300 then 10 else 0) - (if c > 20 then 2 * (c - 20) else 0)) ∧
    (calculateScore 299 5).final_score = 110 ∧
    (calculateScore 400 25).final_score = 90 ∧
    (calculateScore 10 0).final_score = 110 := by
  refine ⟨rfl, rfl, ?_, ?_, by decide, by decide, by decide⟩
  · unfold calculateScore
    split <;> simp <;> ring_nf
  · unfold calculateScore
    split <;> split <;> simp [max_comm] <;> ring_nf

/-! ### Supporting lemmas for the strict-output pattern (C4) -/

/-- A literal token consumes exactly itself. -/
theorem reMatch_lit_cons (l : List Char) (ts : List RTok) (cs : List Char) :
    reMatch (.lit l :: ts) (l ++ cs) = reMatch ts cs := by
  have h1 : l.isPrefixOf (l ++ cs) = true := List.isPrefixOf_iff_prefix.mpr ⟨cs, rfl⟩
  have h2 : (l ++ cs).drop l.length = cs := List.drop_left' rfl
  simp [reMatch, h1, h2]

/-- The class loop accepts any non-empty block of class characters followed
by an accepted continuation. -/
theorem clsLoop_append (p : Char → Bool) (next : List Char → Bool) (A cs : List Char)
    (hA : A ≠ []) (hall : ∀ c ∈ A, p c = true) (h : next cs = true) :
    clsLoop p next (A ++ cs) = true := by
  induction A with
  | nil => exact absurd rfl hA
  | cons a A' ih =>
    have hpa : p a = true := hall a (List.mem_cons_self _ _)
    cases A' with
    | nil =>
      simp only [List.cons_append, List.nil_append]
      simp [clsLoop, hpa, h]
    | cons b B =>
      have ih2 := ih (by simp) (fun c hc => hall c (List.mem_cons_of_mem _ hc))
      simp only [List.cons_append] at ih2 ⊢
      have step : clsLoop p next (a :: (b :: (B ++ cs))) =
          (p a && (next (b :: (B ++ cs)) || clsLoop p next (b :: (B ++ cs)))) := rfl
      rw [step, hpa, ih2]
      simp

/-- A class token can consume any non-empty block of class characters. -/
theorem reMatch_cls_append (p : Char → Bool) (ts : List RTok) (A cs : List Char)
    (hA : A ≠ []) (hall : ∀ c ∈ A, p c = true) (h : reMatch ts cs = true) :
    reMatch (.cls p :: ts) (A ++ cs) = true := by
  simp only [reMatch]
  exact clsLoop_append p (reMatch ts) A cs hA hall h

/-- Each `BugType.value` string is a non-empty `[A-Z_]` block. -/
theorem bugTypeValue_ne_nil (bt : BugType) : (bugTypeValue bt).data ≠ [] := by
  cases bt <;> decide

theorem bugTypeValue_isAZU (bt : BugType) : ∀ c ∈ (bugTypeValue bt).data, isAZU c = true := by
  cases bt <;> decide

/-- Each fix phrase is non-empty and newline-free. -/
theorem fixMapping_ne_nil (bt : BugType) : (fixMapping bt).data ≠ [] := by
  cases bt <;> decide

theorem fixMapping_dot (bt : BugType) : ∀ c ∈ (fixMapping bt).data, dotClass c = true := by
  cases bt <;> decide

theorem digitChar_isDigit (d : Nat) (h : d < 10) : (digitChar d).isDigit = true := by
  interval_cases d <;> decide

/-- With enough fuel, the digit expansion is a non-empty digit string. -/
theorem decDigitsCore_spec (fuel : Nat) :
    ∀ n, n < fuel → decDigitsCore fuel n ≠ [] ∧
      ∀ c ∈ decDigitsCore fuel n, c.isDigit = true := by
  induction fuel with
  | zero => intro n hn; omega
  | succ fuel ih =>
    intro n _
    by_cases h : n < 10
    · rw [decDigitsCore, if_pos h]
      refine ⟨by simp, ?_⟩
      intro c hc
      rw [List.mem_singleton] at hc
      exact hc ▸ digitChar_isDigit n h
    · rw [decDigitsCore, if_neg h]
      have ihn := ih (n / 10) (by omega)
      refine ⟨by simp, ?_⟩
      intro c hc
      rcases List.mem_append.mp hc with hc | hc
      · exact ihn.2 c hc
      · rw [List.mem_singleton] at hc
        exact hc ▸ digitChar_isDigit (n % 10) (Nat.mod_lt _ (by omega))

/-- Decimal renderings are non-empty digit strings. -/
theorem decDigits_spec (n : Nat) :
    decDigits n ≠ [] ∧ ∀ c ∈ decDigits n, c.isDigit = true := by
  rw [decDigits]
  exact decDigitsCore_spec (n + 1) n (by omega)

/-- Is an `Except` value a success? (Used to state that `generate_fix`
raised.) -/
def exceptOk {ε α : Type} : Except ε α → Bool
  | .ok _ => true
  | .error _ => false

/-- Witness for C5 at `t = 299`, `c = 5`. -/
theorem c5_score_witness :
    (calculateScore 299 5).base_score = 100 ∧
    (calculateScore 299 5).time_bonus = (if (299 : Int) < 300 then 10 else 0) ∧
    (calculateScore 299 5).commit_penalty = (if (5 : Int) > 20 then 2 * (5 - 20) else 0) ∧
    (calculateScore 299 5).final_score =
      max 0 ((100 : Int) + (if (299 : Int) < 300 then 10 else 0) -
        (if (5 : Int) > 20 then 2 * ((5 : Int) - 20) else 0)) ∧
    (calculateScore 299 5).final_score = 110 ∧
    (calculateScore 400 25).final_score = 90 ∧
    (calculateScore 10 0).final_score = 110 := by
  have h := c5_score 299 5 (by decide) (by decide)
  exact ⟨h.1, h.2.1, h.2.2.1, h.2.2.2.1, h.2.2.2.2.1, h.2.2.2.2.2.1, h.2.2.2.2.2.2⟩

/-- C4 (counterexample): the claim quantifies over *every* file string, but
`generate_fix` raises (returns an error) instead of returning a
grammar-conforming descriptor when the file string is empty, and likewise
when it contains a newline. -/
theorem c4_counterexample :
    exceptOk (generateFix "" 1 .IMPORT "m") = false ∧
    exceptOk (generateFix "a\nb" 1 .IMPORT "m") = false := by
  exact ⟨by decide, by decide⟩

/-- C4 (amended): for every `BugType`, every *non-empty, newline-free* file
string and every line number, `generate_fix` returns the descriptor
`<CATEGORY> error in <file> line <line> → Fix: <phrase>` with the fixed
one-to-one phrase mapping, and that descriptor matches
`^[A-Z_]+ error in .+ line \d+ → Fix: .+$`.  (A category outside the closed
enumeration is not representable in the embedding; the source raises there.) -/
theorem c4_descriptor_amended (bt : BugType) (file msg : String) (n : Nat)
    (hne : file ≠ "") (hnl : ∀ c ∈ file.data, c ≠ '\n') :
    generateFix file n bt msg = Except.ok
      { file := file
        line_number := n
        bug_type := bt
        commit_message := "[AI-AGENT] Fix " ++ pyToLower (bugTypeValue bt) ++
          " issue in " ++ file
        strict_output := bugTypeValue bt ++ " error in " ++ file ++ " line " ++
          natToDec n ++ " → Fix: " ++ fixMapping bt } ∧
    matchStrict (bugTypeValue bt ++ " error in " ++ file ++ " line " ++
      natToDec n ++ " → Fix: " ++ fixMapping bt) = true := by
  have hfile_ne : file.data ≠ [] := by
    intro h
    exact hne (String.ext h)
  have hdot_file : ∀ c ∈ file.data, dotClass c = true := by
    intro c hc
    simp only [dotClass, decide_eq_true_eq]
    exact hnl c hc
  have hmatch : matchStrict (bugTypeValue bt ++ " error in " ++ file ++ " line " ++
      natToDec n ++ " → Fix: " ++ fixMapping bt) = true := by
    unfold matchStrict strictToks
    have hdata : (bugTypeValue bt ++ " error in " ++ file ++ " line " ++
        natToDec n ++ " → Fix: " ++ fixMapping bt).data =
        (bugTypeValue bt).data ++ ((" error in ").data ++ (file.data ++
          ((" line ").data ++ ((natToDec n).data ++ ((" → Fix: ").data ++
            (fixMapping bt).data))))) := by
      simp [String.data_append, List.append_assoc]
    rw [hdata]
    apply reMatch_cls_append _ _ _ _ (bugTypeValue_ne_nil bt) (bugTypeValue_isAZU bt)
    rw [reMatch_lit_cons]
    apply reMatch_cls_append _ _ _ _ hfile_ne hdot_file
    rw [reMatch_lit_cons]
    apply reMatch_cls_append _ _ _ _ (decDigits_spec n).1 (decDigits_spec n).2
    rw [reMatch_lit_cons]
    have hnil : (fixMapping bt).data = (fixMapping bt).data ++ ([] : List Char) := by
      simp
    rw [hnil]
    exact reMatch_cls_append _ _ _ _ (fixMapping_ne_nil bt) (fixMapping_dot bt) rfl
  refine ⟨?_, hmatch⟩
  unfold generateFix
  simp only [hmatch, if_true]

/-- Witness for C4 (amended) at `IMPORT`, file `test.py`, line 5. -/
theorem c4_descriptor_witness :
    generateFix "test.py" 5 .IMPORT "m" = Except.ok
      { file := "test.py"
        line_number := 5
        bug_type := .IMPORT
        commit_message := "[AI-AGENT] Fix " ++ pyToLower (bugTypeValue .IMPORT) ++
          " issue in " ++ "test.py"
        strict_output := bugTypeValue .IMPORT ++ " error in " ++ "test.py" ++ " line " ++
          natToDec 5 ++ " → Fix: " ++ fixMapping .IMPORT } ∧
    matchStrict (bugTypeValue .IMPORT ++ " error in " ++ "test.py" ++ " line " ++
      natToDec 5 ++ " → Fix: " ++ fixMapping .IMPORT) = true :=
  c4_descriptor_amended .IMPORT "test.py" "m" 5 (by decide) (by decide)

/-- C6: fix application is transactional.  With the target file present and
readable: a read fault returns `False` with the filesystem unchanged; an
empty or unchanged candidate returns `False` with the filesystem unchanged;
a candidate failing the `ast.parse` validation returns `False` with the
filesystem unchanged; a write fault returns `False`; and the filesystem is
modified only when the candidate is non-empty, differs from the original,
passes validation and the write succeeds — in which case exactly the target
file is overwritten with the candidate. -/
theorem c6_transactional (fs : List (String × String)) (pOk : String → Bool)
    (wOk : Bool) (repo file msg et : String) (ln : Nat) (bt : BugType)
    (orig : String) (hread : fs.lookup (repo ++ "/" ++ file) = some orig) :
    (applyFix fs pOk false wOk repo file ln bt msg et = (false, fs)) ∧
    (generateFixWithHeuristics orig ln bt et msg = "" ∨
       generateFixWithHeuristics orig ln bt et msg = orig →
       applyFix fs pOk true wOk repo file ln bt msg et = (false, fs)) ∧
    (pOk (generateFixWithHeuristics orig ln bt et msg) = false →
       applyFix fs pOk true wOk repo file ln bt msg et = (false, fs)) ∧
    (wOk = false →
       applyFix fs pOk true wOk repo file ln bt msg et = (false, fs)) ∧
    ((applyFix fs pOk true wOk repo file ln bt msg et).2 ≠ fs →
       applyFix fs pOk true wOk repo file ln bt msg et =
         (true, fsWrite fs (repo ++ "/" ++ file)
           (generateFixWithHeuristics orig ln bt et msg)) ∧
       generateFixWithHeuristics orig ln bt et msg ≠ "" ∧
       generateFixWithHeuristics orig ln bt et msg ≠ orig ∧
       pOk (generateFixWithHeuristics orig ln bt et msg) = true ∧ wOk = true) := by
  have hbranch : ∀ rOk : Bool,
      applyFix fs pOk rOk wOk repo file ln bt msg et =
        (if (!rOk) = true then (false, fs)
         else if (decide (ln < 1) ||
             decide ((splitlinesPlain orig).length < ln)) = true then (false, fs)
         else if (decide (generateFixWithHeuristics orig ln bt et msg = "") ||
             decide (generateFixWithHeuristics orig ln bt et msg = orig)) = true then (false, fs)
         else if (!pOk (generateFixWithHeuristics orig ln bt et msg)) = true then (false, fs)
         else if (!wOk) = true then (false, fs)
         else (true, fsWrite fs (repo ++ "/" ++ file)
           (generateFixWithHeuristics orig ln bt et msg))) := by
    intro rOk
    simp only [applyFix, hread]
  refine ⟨?_, ?_, ?_, ?_, ?_⟩
  · rw [hbranch false]
    rfl
  · intro hcand
    rw [hbranch true]
    split_ifs with h1 h2 h3 h4 h5 <;> try rfl
    exfalso
    apply h3
    rcases hcand with h | h <;> simp [h]
  · intro hp
    rw [hbranch true]
    split_ifs with h1 h2 h3 h4 h5 <;> try rfl
    exfalso
    apply h4
    simp [hp]
  · intro hw
    subst hw
    rw [hbranch true]
    split_ifs with h1 h2 h3 h4 h5 <;> first | rfl | exact absurd rfl h5
  · intro hch
    rw [hbranch true] at hch ⊢
    split_ifs at hch ⊢ with h1 h2 h3 h4 h5
    · exact absurd rfl hch
    · exact absurd rfl hch
    · exact absurd rfl hch
    · exact absurd rfl hch
    · exact absurd rfl hch
    · have h3' : ¬(generateFixWithHeuristics orig ln bt et msg = "" ∨
          generateFixWithHeuristics orig ln bt et msg = orig) := by
        intro hc
        apply h3
        rcases hc with h | h <;> simp [h]
      push_neg at h3'
      have h4' : pOk (generateFixWithHeuristics orig ln bt et msg) = true := by
        by_contra hc
        rw [Bool.not_eq_true] at hc
        exact h4 (by simp [hc])
      have h5' : wOk = true := by
        by_contra hc
        rw [Bool.not_eq_true] at hc
        exact h5 (by simp [hc])
      exact ⟨rfl, h3'.1, h3'.2, h4', h5'⟩

/-- Witness for C6: on a one-file filesystem, a LOGIC failure for which the
heuristics produce no candidate yields `False` and leaves the filesystem
unchanged. -/
theorem c6_transactional_witness :
    ([("r/a.py", "x = 1\n")].lookup ("r" ++ "/" ++ "a.py") = some "x = 1\n") ∧
    applyFix [("r/a.py", "x = 1\n")] (fun _ => true) true true "r" "a.py" 1
      .LOGIC "boom" "AssertionError" = (false, [("r/a.py", "x = 1\n")]) :=
  ⟨by decide, by
    have h := (c6_transactional [("r/a.py", "x = 1\n")] (fun _ => true) true "r" "a.py"
      "boom" "AssertionError" 1 .LOGIC "x = 1\n" (by decide)).2.1
    exact h (Or.inl (by decide))⟩

/-- C8: for an IMPORT-classified failure whose message reports a bare
undefined name from the fixed lookup of well-known names, the heuristic
prepends the corresponding import statement to the file content (the name is
matched case-insensitively); for a `ModuleNotFoundError`, or a
`no module named ...` message with no import context, no transformation is
attempted (the empty no-fix marker is returned). -/
theorem c8_import_heuristics :
    (∀ (content : String) (ln : Nat) (k imp : String), (k, imp) ∈ commonImports →
       generateFixWithHeuristics content ln .IMPORT "NameError"
         ("name " ++ sq ++ k ++ sq ++ " is not defined") = imp ++ "\n\n" ++ content) ∧
    (∀ (content msg : String) (ln : Nat),
       generateFixWithHeuristics content ln .IMPORT "ModuleNotFoundError" msg = "") ∧
    (∀ (content : String) (ln : Nat),
       generateFixWithHeuristics content ln .IMPORT "ImportError" "No module named xyz" = "") ∧
    (∀ (content : String) (ln : Nat),
       generateFixWithHeuristics content ln .IMPORT "NameError"
         ("name " ++ sq ++ "OS" ++ sq ++ " is not defined") = "import os" ++ "\n\n" ++ content) := by
  refine ⟨?_, fun _ _ _ => rfl, fun _ _ => rfl, fun _ _ => rfl⟩
  intro content ln k imp hmem
  simp only [commonImports, List.mem_cons, List.not_mem_nil, or_false, Prod.mk.injEq] at hmem
  rcases hmem with h | h | h | h | h | h | h | h | h | h | h | h <;>
    · obtain ⟨rfl, rfl⟩ := h
      rfl

/-- Witness for C8 at the well-known name `os`. -/
theorem c8_import_heuristics_witness :
    ("os", "import os") ∈ commonImports ∧
    generateFixWithHeuristics "x = 1\n" 1 .IMPORT "NameError"
      ("name " ++ sq ++ "os" ++ sq ++ " is not defined") = "import os" ++ "\n\n" ++ "x = 1\n" :=
  ⟨by decide, c8_import_heuristics.1 "x = 1\n" 1 "os" "import os" (by decide)⟩

/-- C10: `apply_fix` is total on invalid targets: a target path that is not
present in the filesystem returns `False` with no modification, and for an
existing file a line number outside `[1, number of lines]` returns `False`
with no modification (the embedding is a total function, so no exception
can escape). -/
theorem c10_invalid_targets (fs : List (String × String)) (pOk : String → Bool)
    (rOk wOk : Bool) (repo file msg et : String) (ln : Nat) (bt : BugType) :
    (fs.lookup (repo ++ "/" ++ file) = none →
       applyFix fs pOk rOk wOk repo file ln bt msg et = (false, fs)) ∧
    (∀ orig, fs.lookup (repo ++ "/" ++ file) = some orig →
       ln < 1 ∨ (splitlinesPlain orig).length < ln →
       applyFix fs pOk rOk wOk repo file ln bt msg et = (false, fs)) := by
  constructor
  · intro h
    simp only [applyFix, h]
  · intro orig h hl
    have hlv : (decide (ln < 1) || decide ((splitlinesPlain orig).length < ln)) = true := by
      rcases hl with hl | hl <;> simp [hl]
    simp only [applyFix, h]
    split_ifs with h1 <;> rfl

/-- Witness for C10: a missing file, and a line number past the end of an
existing one-line file, both return `False` without touching the filesystem. -/
theorem c10_invalid_targets_witness :
    ([("r/a.py", "x = 1\n")].lookup ("r" ++ "/" ++ "b.py") = none) ∧
    applyFix [("r/a.py", "x = 1\n")] (fun _ => true) true true "r" "b.py" 1
      .LOGIC "m" "E" = (false, [("r/a.py", "x = 1\n")]) ∧
    ([("r/a.py", "x = 1\n")].lookup ("r" ++ "/" ++ "a.py") = some "x = 1\n") ∧
    ((1 : Nat) < 1 ∨ (splitlinesPlain "x = 1\n").length < 9) ∧
    applyFix [("r/a.py", "x = 1\n")] (fun _ => true) true true "r" "a.py" 9
      .LOGIC "m" "E" = (false, [("r/a.py", "x = 1\n")]) := by
  refine ⟨by decide, ?_, by decide, Or.inr (by decide), ?_⟩
  · exact (c10_invalid_targets [("r/a.py", "x = 1\n")] (fun _ => true) true true
      "r" "b.py" "m" "E" 1 .LOGIC).1 (by decide)
  · exact (c10_invalid_targets [("r/a.py", "x = 1\n")] (fun _ => true) true true
      "r" "a.py" "m" "E" 9 .LOGIC).2 "x = 1\n" (by decide) (Or.inr (by decide))

/-! ### Deduplication invariant of the extraction engine (C2) -/

/-- The uniqueness key of a failure record. -/
def keyOf (r : TestFailure) : String × Nat := (r.file, r.line_number)

/-- Parse invariant: every emitted record's key is in the seen set, and the
emitted keys are pairwise distinct. -/
def PInv (st : PState) : Prop :=
  (∀ r ∈ st.failures, keyOf r ∈ st.seen) ∧ (st.failures.map keyOf).Nodup

theorem pinv_init : PInv initPState := by
  constructor
  · intro r hr
    simp [initPState] at hr
  · simp [initPState]

theorem pinv_of_fields {st st' : PState} (hf : st'.failures = st.failures)
    (hs : st'.seen = st.seen) (h : PInv st) : PInv st' := by
  rw [PInv, hf, hs]
  exact h

/-- The guarded emit preserves the invariant. -/
theorem pinv_emitIfNew (key : String × Nat) (r : TestFailure) (st : PState)
    (hk : keyOf r = key) (h : PInv st) : PInv (emitIfNew key r st) := by
  unfold emitIfNew
  split
  · exact h
  · next hnot =>
    constructor
    · intro x hx
      simp only at hx ⊢
      rcases List.mem_append.mp hx with hx | hx
      · exact List.mem_cons_of_mem _ (h.1 x hx)
      · rw [List.mem_singleton] at hx
        subst hx
        rw [hk]
        exact List.mem_cons_self _ _
    · simp only [List.map_append, List.nodup_append]
      refine ⟨h.2, by simp, ?_⟩
      intro a ha hb
      simp only [List.map_cons, List.map_nil, List.mem_singleton] at hb
      subst hb
      obtain ⟨x, hxmem, hxkey⟩ := List.mem_map.mp ha
      apply hnot
      rw [← hk, ← hxkey]
      exact h.1 x hxmem

theorem pinv_stage1 (repo line : String) (st : PState) (h : PInv st) :
    PInv (stage1 repo line st) := by
  unfold stage1
  split
  · exact pinv_of_fields rfl rfl h
  · exact h

theorem pinv_appendTbLine (line : String) (st : PState) (h : PInv st) :
    PInv (appendTbLine line st) := by
  unfold appendTbLine
  split
  · exact h
  · exact pinv_of_fields rfl rfl h

theorem pinv_stage2 (line : String) (st : PState) (h : PInv st) :
    PInv (stage2 line st) := by
  unfold stage2
  split
  · split
    · split
      · exact pinv_of_fields rfl rfl (pinv_emitIfNew _ _ _ rfl h)
      · exact pinv_appendTbLine line st h
    · exact pinv_appendTbLine line st h
  · exact pinv_appendTbLine line st h

theorem pinv_stage3 (repo line : String) (lookahead : List String) (st : PState)
    (h : PInv st) : PInv (stage3 repo line lookahead st) := by
  unfold stage3
  split
  · exact h
  · dsimp only
    split
    · exact pinv_emitIfNew _ _ _ rfl h
    · exact h

theorem pinv_parseGo (repo : String) (lines : List String) :
    ∀ st, PInv st → PInv (parseGo repo lines st) := by
  induction lines with
  | nil => intro st h; exact h
  | cons line rest ih =>
    intro st h
    exact ih _ (pinv_stage3 repo line (rest.take 4) _
      (pinv_stage2 line _ (pinv_stage1 repo line st h)))

/-- C2: the extraction engine produces at most one record per (file, line)
pair — for every test-run output the emitted keys are pairwise distinct,
with a single seen set shared across the whole parse and across both report
styles — and on an output containing a pytest-style and a traceback-style
report for the same location, exactly one record survives, namely the
first-style one (first record wins). -/
theorem c2_dedup :
    (∀ output repo_path : String,
       ((parsePytestOutput output repo_path).map keyOf).Nodup) ∧
    ((parsePytestOutput
        ("tests/test_a.py:3: in test_x\nE   NameError: name " ++ sq ++ "os" ++ sq ++
         " is not defined\nFile \"tests/test_a.py\", line 3, in test_x\nNameError: name " ++
         sq ++ "os" ++ sq ++ " is not defined") "/repo").map
       (fun r => (r.file, r.line_number, r.error_type, r.message)) =
     [("tests/test_a.py", 3, "NameError",
       "name " ++ sq ++ "os" ++ sq ++ " is not defined")]) := by
  constructor
  · intro output repo_path
    exact (pinv_parseGo repo_path (splitNl output) initPState pinv_init).2
  · rfl

/-! ### C3: extraction failure is unrecoverable -/

/-- C3: if the test run exits non-zero, and it is not the dedicated
setup-failure exit code 4 with a parseable setup error, and the extraction
engine parses zero failure records from the combined output, then
`run_tests` raises (`Except.error`) instead of returning an empty
successful result; and an exception from the test agent at iteration 1
makes the orchestrator finalize the run as FAILED with no further
iterations. -/
theorem c3_extraction_failure :
    (∀ (rc : Int) (so se repo : String),
       rc ≠ 0 →
       ¬(rc = 4 ∧ (parseSetupError (so ++ "\n" ++ se) repo).isSome = true) →
       parsePytestOutput (so ++ "\n" ++ se) repo = [] →
       runTestsModel rc so se repo =
         .error "Tests failed but no structured failures could be extracted from pytest output") ∧
    (∀ env : OrchestratorEnv, env.testOutcome 1 = .raised → 1 ≤ env.retryLimit →
       (executeRun env).status = RunStatus.FAILED ∧
       (executeRun env).results.final_status = RunStatus.FAILED ∧
       (executeRun env).results.iterations_used = 1) := by
  constructor
  · intro rc so se repo hrc hnsetup hparse
    have hsetup : (if rc = 4 then parseSetupError (so ++ "\n" ++ se) repo else none) = none := by
      split
      · rename_i h4
        rcases hopt : parseSetupError (so ++ "\n" ++ se) repo with _ | f
        · rfl
        · exact absurd ⟨h4, by rw [hopt]; rfl⟩ hnsetup
      · rfl
    simp only [runTestsModel, if_neg hrc, hsetup, hparse]
    rfl
  · intro env h hN
    rcases hlim : env.retryLimit with _ | n
    · omega
    · refine ⟨?_, ?_, ?_⟩ <;>
        simp [executeRun, hlim, loopExec, h]

/-- Witness for C3: a failing run (exit 1) with unparseable output raises,
and a run whose test agent always raises finalizes FAILED after
iteration 1. -/
theorem c3_extraction_failure_witness :
    ((1 : Int) ≠ 0) ∧
    (¬((1 : Int) = 4 ∧ (parseSetupError ("garbage output" ++ "\n" ++ "") "/repo").isSome = true)) ∧
    parsePytestOutput ("garbage output" ++ "\n" ++ "") "/repo" = [] ∧
    runTestsModel 1 "garbage output" "" "/repo" =
      .error "Tests failed but no structured failures could be extracted from pytest output" ∧
    (let envRaise : OrchestratorEnv :=
      { retryLimit := 3, isLocalRepo := false, testOutcome := fun _ => .raised,
        applyFixOutcome := fun _ _ => false, commitOutcome := fun _ => false,
        ciOutcome := fun _ => false, elapsedSeconds := 5 }
     (executeRun envRaise).status = RunStatus.FAILED ∧
     (executeRun envRaise).results.final_status = RunStatus.FAILED ∧
     (executeRun envRaise).results.iterations_used = 1) := by
  refine ⟨by decide, ?_, by rfl, ?_, ?_⟩
  · intro hc
    exact absurd hc.1 (by decide)
  · exact c3_extraction_failure.1 1 "garbage output" "" "/repo" (by decide)
      (fun hc => absurd hc.1 (by decide)) rfl
  · exact c3_extraction_failure.2
      { retryLimit := 3, isLocalRepo := false, testOutcome := fun _ => .raised,
        applyFixOutcome := fun _ _ => false, commitOutcome := fun _ => false,
        ciOutcome := fun _ => false, elapsedSeconds := 5 } rfl (by decide)

/-! ### C7: what the fix counters actually count -/

/-- The single failure of the spec's end-to-end scenario: an undefined-name
error for `os`. -/
def c7failE2E : TestFailure :=
  { file := "tests/test_app.py", line_number := 1,
    message := "name " ++ sq ++ "os" ++ sq ++ " is not defined",
    error_type := "NameError", full_traceback := "" }

/-- End-to-end environment: retry limit 1, the heuristic fix applies, CI
does not pass, so the run ends FAILED after the single iteration. -/
def envC7e2e : OrchestratorEnv :=
  { retryLimit := 1, isLocalRepo := false, testOutcome := fun _ => .failed [c7failE2E],
    applyFixOutcome := fun _ _ => true, commitOutcome := fun _ => true,
    ciOutcome := fun _ => false, elapsedSeconds := 10 }

/-- Counterexample environment: the same single-failure run, but the fix
application fails, so no FixRecord is applied. -/
def envC7cex : OrchestratorEnv :=
  { retryLimit := 1, isLocalRepo := false, testOutcome := fun _ => .failed [c7failE2E],
    applyFixOutcome := fun _ _ => false, commitOutcome := fun _ => true,
    ciOutcome := fun _ => false, elapsedSeconds := 10 }

/-- C7 (counterexample): the reported `total_fixes` does *not* equal the
number of applied (FIXED) FixRecords: a run whose only fix attempt fails
reports `total_fixes = 1` while zero records are applied — `total_fixes`
counts all FixRecords, applied or failed. -/
theorem c7_counterexample :
    (executeRun envC7cex).results.total_fixes = 1 ∧
    ((executeRun envC7cex).results.fixes.filter
      (fun r => decide (r.status = FixStatus.FIXED))).length = 0 := by
  exact ⟨by decide, by decide⟩

/-- C7 (amended): `total_fixes` equals the total number of FixRecords
(applied and failed alike); only a FixApplied outcome increments the
`fixes_applied` counter that the iteration uses to gate committing; and the
spec's end-to-end scenario holds: retry limit 1, one undefined-name failure
whose fix is applied, run terminates FAILED with exactly one FixRecord
marked applied and `total_fixes = 1`. -/
theorem c7_fix_counters_amended :
    (∀ env : OrchestratorEnv,
       (executeRun env).results.total_fixes = (executeRun env).results.fixes.length) ∧
    (∀ (env : OrchestratorEnv) (iter : Nat) (fs : List TestFailure) (idx : Nat)
       (res : ResultsM) (n : Nat) (res2 : ResultsM) (fa : Nat),
       processFailures env iter fs idx res n = .ok (res2, fa) →
       ∃ newRecs, res2.fixes = res.fixes ++ newRecs ∧
         fa = n + (newRecs.filter (fun r => decide (r.status = FixStatus.FIXED))).length) ∧
    ((executeRun envC7e2e).results.final_status = RunStatus.FAILED ∧
     (executeRun envC7e2e).results.total_fixes = 1 ∧
     (executeRun envC7e2e).results.fixes.map (fun r => r.status) = [FixStatus.FIXED] ∧
     (executeRun envC7e2e).results.iterations_used = 1) := by
  refine ⟨fun env => rfl, ?_, by decide, by decide, by decide, by decide⟩
  intro env iter fs
  induction fs with
  | nil =>
    intro idx res n res2 fa h
    simp only [processFailures, Except.ok.injEq, Prod.mk.injEq] at h
    obtain ⟨rfl, rfl⟩ := h
    exact ⟨[], by simp⟩
  | cons failure rest ih =>
    intro idx res n res2 fa h
    simp only [processFailures] at h
    rcases hg : generateFix (parseFailure failure.file failure.line_number failure.message
        failure.error_type).file (parseFailure failure.file failure.line_number failure.message
        failure.error_type).line_number (parseFailure failure.file failure.line_number
        failure.message failure.error_type).bug_type (parseFailure failure.file
        failure.line_number failure.message failure.error_type).raw_message with e | proposal
    · rw [hg] at h
      simp at h
    · rw [hg] at h
      dsimp only at h
      by_cases hpre : strStartsWith proposal.commit_message "[AI-AGENT]" = true
      · rw [if_pos hpre] at h
        obtain ⟨newRecs, hfix, hfa⟩ := ih (idx + 1) _ _ res2 fa h
        refine ⟨{ file := proposal.file, bug_type := proposal.bug_type,
                  line_number := proposal.line_number,
                  commit_message := proposal.commit_message,
                  status := if env.applyFixOutcome iter idx = true then FixStatus.FIXED
                            else FixStatus.FAILED,
                  strict_output := proposal.strict_output } :: newRecs, ?_, ?_⟩
        · rw [hfix]
          simp
        · rw [hfa]
          by_cases happ : env.applyFixOutcome iter idx = true <;>
            simp [happ, List.filter]
          omega
      · rw [if_neg hpre] at h
        simp at h

/-- Witness for C7 (amended) at the end-to-end environment: processing its
single failure returns a fixes-applied count of 1 and appends exactly one
applied record. -/
theorem c7_fix_counters_witness :
    (∃ res2 fa, processFailures envC7e2e 1 [c7failE2E] 0 initResults 0 = .ok (res2, fa) ∧
      (∃ newRecs, res2.fixes = initResults.fixes ++ newRecs ∧
        fa = 0 + (newRecs.filter (fun r => decide (r.status = FixStatus.FIXED))).length)) := by
  have hok : exceptOk (processFailures envC7e2e 1 [c7failE2E] 0 initResults 0) = true := by
    decide
  rcases hres : processFailures envC7e2e 1 [c7failE2E] 0 initResults 0 with e | ⟨res2, fa⟩
  · rw [hres] at hok
    simp [exceptOk] at hok
  · exact ⟨res2, fa, rfl, c7_fix_counters_amended.2.1 envC7e2e 1 [c7failE2E] 0
      initResults 0 res2 fa hres⟩

end CICD
